import Mathlib

/-!
Verification development for the C++ code generator in
`code_generator/generators/cpp.py`.

The Python source is shallowly embedded here:

* `Qualifier` chains (decorator pattern, lines 34-114) become an inductive
  type tagged by `QKind`; the Python subclasses (`Static`, `Const`, ...)
  fix the keyword, so the tag determines the keyword.
* Rendering is modelled as pure functions over strings.  The in-place
  mutation performed by `reduce_qualifiers` (line 404 rebinds
  `qualifier.decorator`) is captured by a second function,
  `reduce_qualifiers_mutated`, that computes what the caller's chain looks
  like after the call.
* I/O objects (`StringIO` writers, `Indentation`) become an explicit state
  record `BState` threaded through the brace-strategy combinators.
* Python truthiness tests on optional strings (`if element.init_value:`)
  are modelled by `truthy`, which is false on `none` and on `some ""`.
-/

namespace CppGen

/-- The qualifier subclasses of `cpp.py` (lines 45-90): each fixes a keyword.
`type(qualifier) in exclude` dispatches on this tag. -/
inductive QKind where
  | static_
  | inline_
  | volatile_
  | virtual_
  | const_
  | constexpr_
  | extern_
  | pure_
deriving DecidableEq, Repr

/-- Keyword fixed by each `Qualifier` subclass constructor (lines 45-90);
`Pure` uses the keyword `"= 0"` (line 90). -/
def QKind.keyword : QKind → String
  | .static_ => "static"
  | .inline_ => "inline"
  | .volatile_ => "volatile"
  | .virtual_ => "virtual"
  | .const_ => "const"
  | .constexpr_ => "constexpr"
  | .extern_ => "extern"
  | .pure_ => "= 0"

/-- `Qualifier` (lines 34-42): a keyword plus an optional decorator.
`base k` is a qualifier whose `decorator` is `None`; `chain k d` has
decorator `d`. -/
inductive Qualifier where
  | base (kind : QKind)
  | chain (kind : QKind) (decorator : Qualifier)
deriving DecidableEq, Repr

/-- The tag of the head link (the Python object's class). -/
def Qualifier.kind : Qualifier → QKind
  | .base k => k
  | .chain k _ => k

/-- The decorator attribute (line 38). -/
def Qualifier.decorator : Qualifier → Option Qualifier
  | .base _ => none
  | .chain _ d => some d

/-- `Qualifier.__call__` (lines 41-42):
`f"{self.keyword} {self.decorator.keyword}" if self.decorator else f"{self.keyword}"`.
Note the source reads `self.decorator.keyword`, the decorator's *keyword
attribute*, not a recursive render of the decorator. -/
def Qualifier.call : Qualifier → String
  | .base k => k.keyword
  | .chain k d => k.keyword ++ " " ++ d.kind.keyword

/-- The kind tags of the whole chain, outermost first. -/
def Qualifier.kinds : Qualifier → List QKind
  | .base k => [k]
  | .chain k d => k :: d.kinds

/-- Kind tags of an optional chain (`None` has no links). -/
def kindsOf : Option Qualifier → List QKind
  | none => []
  | some q => q.kinds

/-- The chain walk of `is_const` (lines 93-98) on a non-`None` qualifier:
true when the head link is a `Const`, else recurse into the decorator. -/
def Qualifier.hasConst : Qualifier → Bool
  | .base k => k = .const_
  | .chain k d => k = .const_ || d.hasConst

/-- `is_const` (lines 93-98): the argument may be `None` (line 96 guards). -/
def is_const : Option Qualifier → Bool
  | none => false
  | some q => q.hasConst

/-- The chain walk of `is_constexpr` (lines 101-106). -/
def Qualifier.hasConstexpr : Qualifier → Bool
  | .base k => k = .constexpr_
  | .chain k d => k = .constexpr_ || d.hasConstexpr

/-- `is_constexpr` (lines 101-106). -/
def is_constexpr : Option Qualifier → Bool
  | none => false
  | some q => q.hasConstexpr

/-- The chain walk of `is_static` (lines 109-114). -/
def Qualifier.hasStatic : Qualifier → Bool
  | .base k => k = .static_
  | .chain k d => k = .static_ || d.hasStatic

/-- `is_static` (lines 109-114). -/
def is_static : Option Qualifier → Bool
  | none => false
  | some q => q.hasStatic

/-- The recursion of `reduce_qualifiers` (lines 397-407) on a non-`None`
chain: reduce the decorator first (line 404 rebinds `qualifier.decorator`
to the result), then drop the head link when its class is in `exclude`
(lines 405-406). -/
def Qualifier.reduce : Qualifier → List QKind → Option Qualifier
  | .base k, exclude => if k ∈ exclude then none else some (.base k)
  | .chain k d, exclude =>
      let d2 := d.reduce exclude
      if k ∈ exclude then d2
      else
        match d2 with
        | none => some (.base k)
        | some d2q => some (.chain k d2q)

/-- `reduce_qualifiers` (lines 397-407): the value *returned* by the Python
function; a `None` chain is returned as-is (lines 401-402). -/
def reduce_qualifiers : Option Qualifier → List QKind → Option Qualifier
  | none, _ => none
  | some q, exclude => q.reduce exclude

/-- What the *caller's* chain looks like after `reduce_qualifiers(q, exclude)`
returns: the head object `q` is never replaced (only returned or skipped),
but line 404 has rebound its `decorator` field to the reduced tail.  This
models the observable in-place mutation of the argument. -/
def reduce_qualifiers_mutated (q : Qualifier) (exclude : List QKind) : Qualifier :=
  match q with
  | .base k => .base k
  | .chain k d =>
      match d.reduce exclude with
      | none => .base k
      | some d2 => .chain k d2

/-- Python truthiness of an optional string: `None` and `''` are falsy. -/
def truthy : Option String → Bool
  | none => false
  | some s => s ≠ ""

/-- Helper for `strContains`: does `needle` occur at some position of the
list? -/
def containsAux (needle : List Char) : List Char → Bool
  | [] => needle.isEmpty
  | c :: rest => needle.isPrefixOf (c :: rest) || containsAux needle rest

/-- `'needle' in hay` on Python strings (substring containment). -/
def strContains (hay needle : String) : Bool :=
  containsAux needle.toList hay.toList

/-- `Visibility` (lines 117-124); `value` is the lowercased member name. -/
inductive Visibility where
  | public_
  | private_
  | protected_
deriving DecidableEq, Repr

/-- `Visibility.value` via `_generate_next_value_` (lines 119-120). -/
def Visibility.value : Visibility → String
  | .public_ => "public"
  | .private_ => "private"
  | .protected_ => "protected"

/-- `CppStandard` (lines 10-32); ordered by the first tuple component. -/
inductive CppStd where
  | cpp03
  | cpp11
deriving DecidableEq, Repr

/-- `CppStandard.__lt__` (lines 14-17): `CPP_03 < CPP_11`. -/
def CppStd.lt : CppStd → CppStd → Bool
  | .cpp03, .cpp11 => true
  | _, _ => false

/-- `CppStandard.__ge__` (lines 29-32). -/
def CppStd.ge (a b : CppStd) : Bool := ¬ CppStd.lt a b

/-- The `ref_to_parent` back-reference chain of an element, innermost parent
first.  Each entry is the parent's `name` together with whether that parent
is a `Class` instance (what `isinstance(ref_to_parent, Class)` tests).  The
Python object graph is cyclic (a class's children point back at it), so the
embedding records the data the renderers read through the pointer:
`build_scope` reads the names (lines 410-419) and the variable renderers
test the immediate parent's class-ness (lines 456 and 478). -/
abbrev ParentChain := List (String × Bool)

/-- `isinstance(cpp_element.ref_to_parent, Class)` on the modelled chain. -/
def parentIsClass : ParentChain → Bool
  | [] => false
  | (_, isCls) :: _ => isCls

/-- Data of a `Variable` (lines 192-202); `Array` (lines 280-301) reuses it
and adds its own fields at the `CppElement` level. -/
structure VariableData where
  name : String
  type : String
  qualifier : Option Qualifier := none
  initValue : Option String := none
  refToParent : ParentChain := []
deriving DecidableEq, Repr

/-- Data of a `Function` (lines 224-260).  `implementation` is the string
the `implementation_handle` callable returns (with `context` already
supplied, lines 674-677); `none` models the absence of a handle. -/
structure FunctionData where
  name : String
  refToParent : ParentChain := []
  returnType : Option String := none
  qualifier : Option Qualifier := none
  postQualifier : Option Qualifier := none
  implementation : Option String := none
  args : Option (List (String × Option String)) := none
deriving DecidableEq, Repr

mutual
/-- The `CppLanguageElement` kinds the verified claims exercise:
`Variable`, its subclass `Array`, `Function`, and `Class` with its subclass
`Struct` (the `isStruct` flag).  `classE` carries `elements`
(`Optional[List[Tuple[CppLanguageElement, Visibility]]]`, line 308, here
`Option Members` so that an uninitialized `None` list stays distinct from
an empty one) and `parents` (line 309). -/
inductive CppElement where
  | varE (v : VariableData)
  | arrE (v : VariableData) (items : Option (List String)) (sizeRef : Option String)
  | funcE (f : FunctionData)
  | classE (isStruct : Bool) (name : String) (refToParent : ParentChain)
      (elements : Option Members) (parents : Option (List (String × Visibility)))

/-- The member list of a class: `List[Tuple[CppLanguageElement, Visibility]]`. -/
inductive Members where
  | nil
  | cons (e : CppElement) (v : Visibility) (rest : Members)
end

/-- The member list as a Lean list of pairs. -/
def Members.toList : Members → List (CppElement × Visibility)
  | .nil => []
  | .cons e v rest => (e, v) :: rest.toList

/-- Just the visibilities, in order. -/
def Members.visibilities : Members → List Visibility
  | .nil => []
  | .cons _ v rest => v :: rest.visibilities

/-- `CppLanguageElement.__post_init__` (lines 135-137): empty `name` raises
`ValueError`.  Runs for `Class`, `Struct`, `Namespace`, `Enum` (which do not
override it) and for `Function` (whose override calls `super`, line 246). -/
def cppElementPostInit (name : String) : Except String Unit :=
  if name = "" then .error "CppElement.name cannot be empty" else .ok ()

/-- `Variable.__post_init__` (lines 200-202): checks only `type`.  It
*overrides* the base `__post_init__` without calling `super().__post_init__()`,
so the empty-name check never runs for a `Variable`. -/
def mkVariable (v : VariableData) : Except String VariableData :=
  if v.type = "" then .error "CppElement.type cannot be empty" else .ok v

/-- `Array.__post_init__` (lines 290-292): identical to `Variable`'s; again
no `super()` call, so no name check. -/
def mkArray (v : VariableData) (items : Option (List String))
    (sizeRef : Option String) : Except String CppElement :=
  if v.type = "" then .error "CppElement.type cannot be empty"
  else .ok (.arrE v items sizeRef)

/-- `Function.__post_init__` (lines 245-253) begins with
`super().__post_init__()`, so a `Function` does fail on an empty name.  (The
`args`-shape checks that follow cannot fail in this typed embedding.) -/
def mkFunction (f : FunctionData) : Except String FunctionData :=
  match cppElementPostInit f.name with
  | .error e => .error e
  | .ok _ => .ok f

/-- Construction of a `Class`/`Struct` runs the inherited base
`__post_init__` (no override), so an empty name fails. -/
def mkClass (isStruct : Bool) (name : String) (refToParent : ParentChain)
    (elements : Option Members) (parents : Option (List (String × Visibility))) :
    Except String CppElement :=
  match cppElementPostInit name with
  | .error e => .error e
  | .ok _ => .ok (.classE isStruct name refToParent elements parents)

/-- `is_integral` (lines 205-206). -/
def is_integral (type : String) : Bool :=
  type = "int" || type = "long" || type = "size_t"

/-- `DefaultValueFactory.default_value` (lines 208-221): explicit
`init_value` wins; otherwise the default is inferred from the type name, and
unknown types raise `ValueError`. -/
def default_value (v : VariableData) : Except String String :=
  if truthy v.initValue then .ok (v.initValue.getD "")
  else if is_integral v.type then .ok "0"
  else if strContains v.type "string" || strContains v.type "char" then .ok "\"\""
  else if strContains v.type "float" || strContains v.type "double" then .ok "0.0"
  else .error ("Cannot determine default init value for '" ++ v.name ++
    "' of type: " ++ v.type)

/-- `build_scope` (lines 410-419): walk `ref_to_parent` upward, producing
`"Outer::Inner::"`. -/
def build_scope : ParentChain → String
  | [] => ""
  | (p, _) :: rest => build_scope rest ++ p ++ "::"

/-- `variable_prototype` (lines 422-438).  `exclude` mirrors the Python
default `None` as `[]` (an empty list is also falsy at line 432, skipping
reduction).  When exclusion happens the source deep-copies the qualifier
first (line 434), so the element's own chain is not touched. -/
def variable_prototype (v : VariableData) (useRefToParent : Bool)
    (exclude : List QKind) : String :=
  let qualifier :=
    if exclude ≠ [] then reduce_qualifiers v.qualifier exclude else v.qualifier
  let qstr := match qualifier with
    | some q => q.call ++ " "
    | none => ""
  let scopedName :=
    if useRefToParent && v.refToParent ≠ [] then
      build_scope v.refToParent ++ v.name
    else v.name
  qstr ++ v.type ++ " " ++ scopedName

/-- `VariableDeclaration.is_assignable` (lines 450-460); raises when a
`constexpr` variable lacks an `init_value` (lines 454-455). -/
def VariableDeclaration_is_assignable (v : VariableData) : Except String Bool :=
  if is_constexpr v.qualifier then
    if truthy v.initValue then .ok true
    else .error "constexpr requires init_value to be assigned"
  else if parentIsClass v.refToParent && is_static v.qualifier then
    .ok (is_integral v.type && is_const v.qualifier)
  else
    .ok (truthy v.initValue && is_const v.qualifier)

/-- `VariableDeclaration.code` (lines 462-465). -/
def VariableDeclaration_code (v : VariableData) : Except String String :=
  match VariableDeclaration_is_assignable v with
  | .error e => .error e
  | .ok true =>
      match default_value v with
      | .error e => .error e
      | .ok dv => .ok (variable_prototype v false [] ++ " = " ++ dv ++ ";")
  | .ok false => .ok (variable_prototype v false [] ++ ";")

/-- `VariableDefinition.code` (lines 480-483): scoped name, `static`
stripped via the exclusion mechanism. -/
def VariableDefinition_code (v : VariableData) : Except String String :=
  if truthy v.initValue then
    .ok (variable_prototype v true [.static_] ++ " = " ++ v.initValue.getD "" ++ ";")
  else
    match default_value v with
    | .error e => .error e
    | .ok dv => .ok (variable_prototype v true [.static_] ++ " = " ++ dv ++ ";")

/-- `VariableConstructorDefinition.code` (lines 495-497): `name(value)` with
an empty value when `init_value` is falsy. -/
def VariableConstructorDefinition_code (v : VariableData) : String :=
  let value := if truthy v.initValue then v.initValue.getD "" else ""
  v.name ++ "(" ++ value ++ ")"

/-- `Indentation.indent` (lines 338-342): `level` copies of `whitespace`
before the text; levels below 1 indent nothing.  The level is an `Int`
because `ClassDeclaration.declarations` temporarily decrements it (line 965)
and Python integers go negative. -/
def indentStr (lvl : Int) (ws : String) (text : String) : String :=
  if lvl < 1 then text else String.join (List.replicate lvl.toNat ws) ++ text

/-- Does the text end with a newline (`line[-1] == '\n'`)?  Only consulted on
non-empty text. -/
def endsNl (t : String) : Bool := t.back = '\n'

/-- Character-level worker for `splitNl`. -/
def splitNlAux : List Char → List (List Char)
  | [] => [[]]
  | c :: rest =>
      if c = '\n' then [] :: splitNlAux rest
      else
        match splitNlAux rest with
        | [] => [[c]]
        | l :: ls => (c :: l) :: ls

/-- Python's `text.split('\n')` (the only separator the source splits on). -/
def splitNl (s : String) : List String :=
  (splitNlAux s.data).map String.mk

/-- The mutable state of one render: the shared output writer (`StringIO`),
the shared `Indentation` (level + whitespace), and the current brace
strategy's `is_ended_with_newline` flag (reset to `False` whenever a fresh
strategy instance is made, line 506). -/
structure BState where
  out : String
  lvl : Int
  ws : String := "\t"
  ended : Bool := false
deriving DecidableEq, Repr

/-- `BraceStrategy.write` (lines 541-544): raw write, no indentation. -/
def bwrite (data : String) (s : BState) : BState :=
  if data = "" then s
  else { s with out := s.out ++ data, ended := endsNl data }

/-- `BraceStrategy.write_line` with the default `enforce_newline=True`
(lines 523-530): indent the (single) line, then force a trailing newline. -/
def bwriteLine (line : String) (s : BState) : BState :=
  if line = "" then s
  else
    let s1 := { s with out := s.out ++ indentStr s.lvl s.ws line, ended := endsNl line }
    if endsNl line then s1 else { s1 with out := s1.out ++ "\n", ended := true }

/-- `BraceStrategy.write_lines` (lines 532-539): split on newlines, indent
every line, append a newline to each. -/
def bwriteLines (lines : String) (s : BState) : BState :=
  if lines = "" then s
  else
    let ls := (splitNl lines).map (fun l => indentStr s.lvl s.ws l ++ "\n")
    { s with out := s.out ++ String.join ls, ended := true }

/-- `KnRStyle.__enter__` (lines 581-586): increment the level, then write
`" {\n"` (directly to the writer) and set the newline flag. -/
def knrEnter (s : BState) : BState :=
  let s1 := { s with lvl := s.lvl + 1 }
  { s1 with out := s1.out ++ " \x7b\n", ended := true }

/-- `AllmanStyle.__enter__` (lines 560-566): write newline + indented `{` +
newline at the *current* level, then increment. -/
def allmanEnter (s : BState) : BState :=
  let s1 := { s with out := s.out ++ "\n" ++ indentStr s.lvl s.ws "\x7b" ++ "\n" }
  { s1 with lvl := s1.lvl + 1, ended := true }

/-- `BraceStrategy.__exit__` (lines 513-518): decrement the level, force a
newline if the body did not end with one, write the indented closing brace
plus postfix. -/
def braceExit (post : String) (s : BState) : BState :=
  let s1 := { s with lvl := s.lvl - 1 }
  let s2 := if s1.ended then s1 else { s1 with out := s1.out ++ "\n" }
  { s2 with out := s2.out ++ indentStr s2.lvl s2.ws ("\x7d" ++ post) }

/-- `SingleLineStyle.__enter__` (lines 597-600): bare `{`, no level change. -/
def slEnter (s : BState) : BState := { s with out := s.out ++ "\x7b" }

/-- `SingleLineStyle.__exit__` (lines 602-603): bare `}` + postfix, no level
change, no forced newline. -/
def slExit (post : String) (s : BState) : BState :=
  { s with out := s.out ++ "\x7d" ++ post }

/-- A complete `with style(...) as os:` block in K&R style, on a fresh
strategy instance (so the newline flag starts `False`). -/
def knrScope (post : String) (body : BState → BState) (s : BState) : BState :=
  braceExit post (body (knrEnter { s with ended := false }))

/-- A complete Allman-style block on a fresh strategy instance. -/
def allmanScope (post : String) (body : BState → BState) (s : BState) : BState :=
  braceExit post (body (allmanEnter { s with ended := false }))

/-- A complete single-line block on a fresh strategy instance. -/
def slScope (post : String) (body : BState → BState) (s : BState) : BState :=
  slExit post (body (slEnter { s with ended := false }))

/-- `FunctionDeclaration.function_return_type` (lines 627-628): `'void'`
when the attribute is falsy. -/
def function_return_type (f : FunctionData) : String :=
  if truthy f.returnType then f.returnType.getD "" else "void"

/-- Declaration arguments (lines 635-640): `"arg"` or `"arg = default"`,
comma-joined. -/
def FunctionDeclaration_args (f : FunctionData) : String :=
  match f.args with
  | none => ""
  | some l => String.intercalate ", "
      (l.map (fun p => p.1 ++ (if truthy p.2 then " = " ++ p.2.getD "" else "")))

/-- The body of `FunctionDeclaration.code` (lines 630-643), parameterized by
the already-computed `function_return_type` result (`none` models the
`None` a `ConstructorDeclaration` returns, line 692-693). -/
def FunctionDeclaration_code_core (f : FunctionData) (rt : Option String) : String :=
  let qualifier := match f.qualifier with | some q => q.call ++ " " | none => ""
  let rtStr := if truthy rt then rt.getD "" ++ " " else ""
  let lhs := qualifier ++ rtStr ++ f.name
  let postQ := match f.postQualifier with | some q => " " ++ q.call | none => ""
  lhs ++ "(" ++ FunctionDeclaration_args f ++ ")" ++ postQ ++ ";"

/-- `FunctionDeclaration.code` (lines 630-643). -/
def FunctionDeclaration_code (f : FunctionData) : String :=
  FunctionDeclaration_code_core f (some (function_return_type f))

/-- `ConstructorDeclaration.code`: same rendering with
`function_return_type` overridden to `None` (lines 690-693). -/
def ConstructorDeclaration_code (f : FunctionData) : String :=
  FunctionDeclaration_code_core f none

/-- `FunctionDefinition.function_prototype` (lines 663-672): scope-qualified
name, argument texts without defaults; `rt` is the computed return type
(`none` for constructors, lines 725-727). -/
def function_prototype (f : FunctionData) (rt : Option String) : String :=
  let scope := build_scope f.refToParent
  let rtStr := if truthy rt then rt.getD "" ++ " " else ""
  let lhs := rtStr ++ scope ++ f.name
  let args := match f.args with
    | none => ""
    | some l => String.intercalate ", " (l.map Prod.fst)
  let postQ := match f.postQualifier with | some q => " " ++ q.call | none => ""
  lhs ++ "(" ++ args ++ ")" ++ postQ

/-- `FunctionDefinition.code` (lines 679-686): prototype, then the body
(`implementation_handle` result, or nothing) inside a K&R block.  Rendered
with a fresh writer and a fresh `Indentation` at level 0, as in
`CodeStyleFactory.__call__` when `indentation` is `None` (lines 611-615) —
`ClassDefinition.definitions` calls `.code()` with no indentation
(line 1031). -/
def FunctionDefinition_code (f : FunctionData) : String :=
  let s0 : BState :=
    { out := function_prototype f (some (function_return_type f)), lvl := 0 }
  (knrScope "" (bwriteLines (f.implementation.getD "")) s0).out

/-- `ConstructorDefinition.is_initializable` (lines 729-736): a `Variable`
(including `Array`) that is neither static nor constexpr. -/
def ConstructorDefinition_is_initializable : CppElement → Bool
  | .varE v => !(is_static v.qualifier) && !(is_constexpr v.qualifier)
  | .arrE v _ _ => !(is_static v.qualifier) && !(is_constexpr v.qualifier)
  | _ => false

/-- `ArrayConstructorDefinition.code` (lines 883-895): `name{body}` under
C++11 (single-line braces, comma-joined items unless an `init_value` is
present), `name()` under C++03. -/
def ArrayConstructorDefinition_code (v : VariableData)
    (items : Option (List String)) (std : CppStd) : String :=
  if CppStd.ge std .cpp11 then
    let body := if truthy v.initValue then v.initValue.getD ""
                else String.intercalate "," (items.getD [])
    (slScope "" (bwrite body) { out := v.name, lvl := 0 }).out
  else v.name ++ "()"

/-- `ConstructorInitializerFactory.build` (lines 696-704): `Array` members
get the array-specific initializer, other `Variable`s the plain one.  The
remaining kinds never reach this function (`is_initializable` filters them
out first); they are mapped to the empty string. -/
def ctorInitializerEntry (std : CppStd) : CppElement → String
  | .arrE v items _ => ArrayConstructorDefinition_code v items std
  | .varE v => VariableConstructorDefinition_code v
  | _ => ""

/-- `ConstructorDefinition.initializer_list` (lines 738-743): one entry per
initializable sibling, in member-list order.  `parent` stands for
`self.cpp_element.ref_to_parent.elements`; `none` models a function with no
parent (`items = None`, which the caller treats like an empty list). -/
def ConstructorDefinition_initializer_list (std : CppStd)
    (parent : Option Members) : List String :=
  match parent with
  | none => []
  | some ms =>
      ((ms.toList.map Prod.fst).filter ConstructorDefinition_is_initializable).map
        (ctorInitializerEntry std)

/-- `ConstructorDefinition.code` (lines 745-756): prototype without return
type, `" :\n"` plus the `",\n"`-joined initializer list when non-empty, then
the K&R body block. -/
def ConstructorDefinition_code (f : FunctionData) (parent : Option Members)
    (std : CppStd) : String :=
  let il := ConstructorDefinition_initializer_list std parent
  let pre := function_prototype f none ++
    (if il ≠ [] then " :\n" ++ String.intercalate ",\n" il else "")
  (knrScope "" (bwriteLines (f.implementation.getD "")) { out := pre, lvl := 0 }).out

/-- The size expression of an array declaration (lines 812-813 / 831-832):
size-reference's name, else item count, else `0`. -/
def arraySize (items : Option (List String)) (sizeRef : Option String) : String :=
  match sizeRef with
  | some n => n
  | none => toString (items.getD []).length

/-- `ArrayDeclaration.code` (lines 809-814). -/
def ArrayDeclaration_code (v : VariableData) (items : Option (List String))
    (sizeRef : Option String) : String :=
  let qualifier := match v.qualifier with | some q => q.call ++ " " | none => ""
  qualifier ++ v.type ++ " " ++ v.name ++ "[" ++ arraySize items sizeRef ++ "];"

/-- `StdArrayDeclaration.code` (lines 829-833). -/
def StdArrayDeclaration_code (v : VariableData) (items : Option (List String))
    (sizeRef : Option String) : String :=
  let qualifier := match v.qualifier with | some q => q.call ++ " " | none => ""
  qualifier ++ "std::array<" ++ v.type ++ ", " ++ arraySize items sizeRef ++ "> " ++
    v.name ++ ";"

/-- `ArrayDefinition.code` (lines 862-872): prototype with empty brackets
and ` =`, then a K&R block whose body is the `init_value` when that is
truthy, otherwise the `",\n"`-joined items (line 868-870: the explicit
`init_value` takes precedence even when items exist). -/
def ArrayDefinition_code (v : VariableData) (items : Option (List String)) : String :=
  let body := if truthy v.initValue then v.initValue.getD ""
              else String.intercalate ",\n" (items.getD [])
  let s0 : BState := { out := variable_prototype v true [.static_] ++ "[]" ++ " =", lvl := 0 }
  (knrScope ";" (bwriteLines body) s0).out

/-- `is_translation_unit_element` (lines 985-994): Functions always; static
Variables unless constexpr, or const of integral type. -/
def is_translation_unit_element : CppElement → Bool
  | .varE v =>
      is_static v.qualifier && !(is_constexpr v.qualifier) &&
        !(is_const v.qualifier && is_integral v.type)
  | .arrE v _ _ =>
      is_static v.qualifier && !(is_constexpr v.qualifier) &&
        !(is_const v.qualifier && is_integral v.type)
  | .funcE _ => true
  | .classE .. => false

mutual
/-- The first loop of `translation_unit_elements` (lines 999-1002): for each
member that is a `Class`, hoist that class's own translation units.  Each
collected element is paired with its owner's member list — the data its
Python `ref_to_parent.elements` back-pointer exposes to
`ConstructorDefinition.initializer_list`. -/
def tuNestedPairs : Members → Except String (List (CppElement × Option Members))
  | .nil => .ok []
  | .cons e _ rest =>
      match e with
      | .classE _ _ _ els _ =>
          match tuPairsOfClass els with
          | .error er => .error er
          | .ok sub =>
              match tuNestedPairs rest with
              | .error er => .error er
              | .ok t => .ok (sub ++ t)
      | _ => tuNestedPairs rest

/-- `translation_unit_elements(cls)` (lines 997-1004): nested classes'
units first, then the class's own qualifying direct members.  Iterating an
uninitialized (`None`) member list raises a `TypeError` in Python
(line 1000), modelled as an error. -/
def tuPairsOfClass : Option Members →
    Except String (List (CppElement × Option Members))
  | none => .error "TypeError: argument of type NoneType is not iterable"
  | some ms =>
      match tuNestedPairs ms with
      | .error er => .error er
      | .ok nested =>
          .ok (nested ++
            ((ms.toList.map Prod.fst).filter is_translation_unit_element).map
              (fun e => (e, some ms)))
end

/-- `ClassCodeFactory.build_definition` (lines 923-937), applied to one
collected translation-unit element (paired with its owner's member list).
The `Class` branch of the source dispatches to a nested `ClassDefinition`;
it is unreachable from `ClassDefinition.definitions` because translation
unit lists never contain a `Class` (`tuPairs_no_class` below), so it is
mapped to an error here to keep the recursion structural. -/
def ClassDefinition_build_definition (fname : String) (std : CppStd)
    (p : CppElement × Option Members) : Except String String :=
  match p.1 with
  | .varE v => VariableDefinition_code v
  | .arrE v items _ => .ok (ArrayDefinition_code v items)
  | .funcE f =>
      .ok (if f.name = fname then ConstructorDefinition_code f p.2 std
           else FunctionDefinition_code f)
  | .classE .. => .error "unreachable: Class in a translation unit list"

/-- The emission loop of `ClassDefinition.definitions` (lines 1025-1032):
a single `'\n'` before every definition except the first. -/
def ClassDefinition_defsLoop (fname : String) (std : CppStd) :
    List (CppElement × Option Members) → String → Bool → Except String String
  | [], out, _ => .ok out
  | p :: rest, out, isFirst =>
      match ClassDefinition_build_definition fname std p with
      | .error er => .error er
      | .ok d =>
          ClassDefinition_defsLoop fname std rest
            (out ++ (if isFirst then "" else "\n") ++ d) false

/-- `ClassDefinition.code` / `.definitions` (lines 1022-1039) for the class
with the given name and member list: nothing is written when the member
list is `None` or empty (line 1023). -/
def ClassDefinition_code (name : String) (std : CppStd) (els : Option Members) :
    Except String String :=
  match els with
  | none => .ok ""
  | some .nil => .ok ""
  | some ms =>
      match tuPairsOfClass (some ms) with
      | .error er => .error er
      | .ok pairs => ClassDefinition_defsLoop name std pairs "" true

/-- `ClassDeclaration.class_inheritance` (lines 953-958). -/
def class_inheritance (parents : Option (List (String × Visibility))) : String :=
  match parents with
  | none => ""
  | some [] => ""
  | some ps =>
      " : " ++ String.intercalate ", " (ps.map (fun p => p.2.value ++ " " ++ p.1))

/-- The visibility-label write of `ClassDeclaration.declarations`
(lines 964-967): dedent one level, write `"<vis>:\n"`, indent back. -/
def labelWrite (vis : Visibility) (s : BState) : BState :=
  let s1 := { s with lvl := s.lvl - 1 }
  let s2 := bwriteLine (vis.value ++ ":\n") s1
  { s2 with lvl := s2.lvl + 1 }

/-- The per-kind default visibility: the `visibility` dataclass field of
`ClassDeclaration` (line 944, `PRIVATE`) and `StructDeclaration`
(line 1070, `PUBLIC`). -/
def defaultVisibility (isStruct : Bool) : Visibility :=
  if isStruct then .public_ else .private_

mutual
/-- `ClassCodeFactory.build_declaration` (lines 905-921) followed by
`.code(indentation)` on the resulting renderer, threading the shared
indentation level.  `fname` is the factory's owning-class name (used for
constructor detection, line 912). -/
def build_declaration_run (std : CppStd) (fname : String) (e : CppElement)
    (lvl : Int) : Except String (String × Int) :=
  match e with
  | .varE v =>
      match VariableDeclaration_code v with
      | .error er => .error er
      | .ok c => .ok (c, lvl)
  | .arrE v items szRef =>
      .ok ((if CppStd.lt std .cpp11 then ArrayDeclaration_code v items szRef
            else StdArrayDeclaration_code v items szRef), lvl)
  | .funcE f =>
      .ok ((if f.name = fname then ConstructorDeclaration_code f
            else FunctionDeclaration_code f), lvl)
  | .classE isStruct nm _ els ps =>
      match classDeclaration_run std isStruct nm ps els
        (defaultVisibility isStruct) lvl with
      | .error er => .error er
      | .ok r => .ok (r.1, r.2.1)

/-- The member loop of `ClassDeclaration.declarations` (lines 960-971):
emit a visibility label at each transition, then the member's declaration
through `write_line`.  Also counts the labels emitted. -/
def declLoop (std : CppStd) (fname : String) (ms : Members)
    (lastVis : Visibility) (s : BState) :
    Except String (BState × Visibility × Nat) :=
  match ms with
  | .nil => .ok (s, lastVis, 0)
  | .cons e v rest =>
      let sl := if v ≠ lastVis then (labelWrite v s, 1) else (s, 0)
      match build_declaration_run std fname e sl.1.lvl with
      | .error er => .error er
      | .ok td =>
          let s2 := bwriteLine td.1 { sl.1 with lvl := td.2 }
          match declLoop std fname rest v s2 with
          | .error er => .error er
          | .ok r => .ok (r.1, r.2.1, sl.2 + r.2.2)

/-- `ClassDeclaration.code` (lines 973-982) on an instance whose
`visibility` field currently holds `vis` (the per-kind default on a fresh
instance): prototype + inheritance, then the declarations inside a K&R
block with postfix `';'`.  Returns the rendered text, the final indentation
level, the instance's `visibility` field after the call (line 971 assigns
it when the member list is truthy), and the number of visibility labels
emitted. -/
def classDeclaration_run (std : CppStd) (isStruct : Bool) (name : String)
    (parents : Option (List (String × Visibility))) (els : Option Members)
    (vis : Visibility) (lvl : Int) :
    Except String (String × Int × Visibility × Nat) :=
  let proto := (if isStruct then "struct " else "class ") ++ name ++
    class_inheritance parents
  let s1 := knrEnter { out := proto, lvl := lvl, ws := "\t", ended := false }
  match els with
  | none =>
      let s3 := braceExit ";" s1
      .ok (s3.out, s3.lvl, vis, 0)
  | some .nil =>
      let s3 := braceExit ";" s1
      .ok (s3.out, s3.lvl, vis, 0)
  | some (.cons e v rest) =>
      match declLoop std name (.cons e v rest) vis s1 with
      | .error er => .error er
      | .ok r =>
          let s3 := braceExit ";" r.1
          .ok (s3.out, s3.lvl, r.2.1, r.2.2)
end

/-! ### Specification-side definitions

The definitions below are written from the *spec's words* (not from the
source); the theorems compare them with the source-translated definitions
above. -/

/-- Is the element a Function? (spec: "Functions (always)"). -/
def isFunctionE : CppElement → Bool
  | .funcE _ => true
  | _ => false

/-- Is the element a Variable?  In the source `Array` is a subclass of
`Variable`, so both constructors qualify. -/
def isVariableE : CppElement → Bool
  | .varE _ => true
  | .arrE _ _ _ => true
  | _ => false

/-- The `qualifier` attribute of a Variable/Array element (others have
none). -/
def qualifierOf : CppElement → Option Qualifier
  | .varE v => v.qualifier
  | .arrE v _ _ => v.qualifier
  | _ => none

/-- The `type` attribute of a Variable/Array element (others: empty). -/
def typeOf : CppElement → String
  | .varE v => v.type
  | .arrE v _ _ => v.type
  | _ => ""

/-- Spec 4.8: "Only two kinds of direct class members ever produce
out-of-class definitions: Functions (always) and Variables that are static,
non-constexpr, and not (const AND integral)". -/
def is_tu_spec (e : CppElement) : Bool :=
  isFunctionE e ||
    (isVariableE e && (is_static (qualifierOf e) &&
      (!(is_constexpr (qualifierOf e)) &&
        !(is_const (qualifierOf e) && is_integral (typeOf e)))))

/-- Concatenation of a list of strings (spec-side; recursive so that
induction is direct). -/
def joinAll : List String → String
  | [] => ""
  | s :: rest => s ++ joinAll rest

/-- Join with one newline between successive entries (spec-side shape of
the definition emission loop). -/
def joinNl : List String → String
  | [] => ""
  | r :: rs => r ++ joinAll (rs.map (fun d => "\n" ++ d))

/-- Render every collected translation-unit element, stopping at the first
error (spec-side restatement of the emission loop's per-element work). -/
def renderAll (fname : String) (std : CppStd) :
    List (CppElement × Option Members) → Except String (List String)
  | [] => .ok []
  | p :: rest =>
      match ClassDefinition_build_definition fname std p with
      | .error e => .error e
      | .ok d =>
          match renderAll fname std rest with
          | .error e => .error e
          | .ok ds => .ok (d :: ds)

/-- The translation-unit pairs contributed by the class's own direct
members (spec 4.8: the outer class's own elements, after the hoisted nested
ones). -/
def directTUPairs (ms : Members) : List (CppElement × Option Members) :=
  ((ms.toList.map Prod.fst).filter is_translation_unit_element).map
    (fun e => (e, some ms))

/-- Spec 4.4: initializer-list membership — "a Variable and not static and
not constexpr". -/
def initializableSpec (e : CppElement) : Bool :=
  isVariableE e && (!(is_static (qualifierOf e)) && !(is_constexpr (qualifierOf e)))

/-- Spec 4.4 (amended by the Array counterexample): a plain Variable entry
renders `name(init_value_or_empty)`; an Array entry renders
`name{init_value_or_joined_items}` under C++11 and `name()` under C++03. -/
def ctorEntrySpec (std : CppStd) : CppElement → String
  | .varE v =>
      v.name ++ "(" ++ (if truthy v.initValue then v.initValue.getD "" else "") ++ ")"
  | .arrE v items _ =>
      if CppStd.ge std .cpp11 then
        v.name ++ "\x7b" ++
          (if truthy v.initValue then v.initValue.getD ""
           else String.intercalate "," (items.getD [])) ++ "\x7d"
      else v.name ++ "()"
  | _ => ""

/-- The lines a K&R block body contributes for a `write_lines` payload at
one level of indentation (spec-side shape of a level-0 block). -/
def bodyLinesOut (ws body : String) : String :=
  if body = "" then ""
  else String.join ((splitNl body).map (fun l => indentStr 1 ws l ++ "\n"))

/-- Spec 4.4: the constructor definition's expected shape — scope-qualified
name with *no return type*, optional `" :\n"` + `",\n"`-joined initializer
entries, then the K&R body block. -/
def ctorShapeSpec (f : FunctionData) (ms : Members) (std : CppStd) : String :=
  let il := ((ms.toList.map Prod.fst).filter initializableSpec).map (ctorEntrySpec std)
  let args := match f.args with
    | none => ""
    | some l => String.intercalate ", " (l.map Prod.fst)
  let postQ := match f.postQualifier with | some q => " " ++ q.call | none => ""
  build_scope f.refToParent ++ f.name ++ "(" ++ args ++ ")" ++ postQ ++
    (if il = [] then "" else " :\n" ++ String.intercalate ",\n" il) ++
    " \x7b\n" ++ bodyLinesOut "\t" (f.implementation.getD "") ++ "\x7d"

/-- Spec 4.4: a constructor declaration's expected shape — qualifier, the
bare name with *no return type*, arguments and the trailing semicolon. -/
def ctorDeclShapeSpec (f : FunctionData) : String :=
  let qualifier := match f.qualifier with | some q => q.call ++ " " | none => ""
  let postQ := match f.postQualifier with | some q => " " ++ q.call | none => ""
  qualifier ++ f.name ++ "(" ++ FunctionDeclaration_args f ++ ")" ++ postQ ++ ";"

/-- Spec 4.6 (amended): the array definition's expected shape — prototype
with empty brackets, ` = `, then the brace block whose body is the
`init_value` whenever that is truthy (even if items exist), otherwise the
`",\n"`-joined items. -/
def arrayDefShapeSpec (v : VariableData) (items : Option (List String)) : String :=
  let body := if truthy v.initValue then v.initValue.getD ""
              else String.intercalate ",\n" (items.getD [])
  variable_prototype v true [.static_] ++ "[]" ++ " =" ++
    " \x7b\n" ++ bodyLinesOut "\t" body ++ "\x7d;"

/-- The number of adjacent visibility changes plus one if the first member's
visibility differs from the kind's default — the spec's formula for the
label count (spec 8, "Round-trip"). -/
def specLabelCount (dflt : Visibility) (vs : List Visibility) : Nat :=
  (vs.zip vs.tail).countP (fun p => decide (p.1 ≠ p.2)) +
    (match vs with
     | [] => 0
     | v1 :: _ => if v1 ≠ dflt then 1 else 0)

/-- The label count as the declaration loop computes it: one label whenever
the current member's visibility differs from the running `last_visibility`. -/
def loopLabelCount : Visibility → List Visibility → Nat
  | _, [] => 0
  | last, v :: rest => (if v ≠ last then 1 else 0) + loopLabelCount v rest

/-! ### Helper lemmas -/

/-- A one-link chain's kind list is the singleton of its head kind. -/
theorem kinds_take_one (d : Qualifier) : d.kinds.take 1 = [d.kind] := by
  cases d <;> rfl

/-- Raw writes do not touch the indentation level. -/
theorem bwrite_lvl (data : String) (s : BState) : (bwrite data s).lvl = s.lvl := by
  simp [bwrite]
  split <;> rfl

/-- Line writes do not touch the indentation level. -/
theorem bwriteLine_lvl (line : String) (s : BState) :
    (bwriteLine line s).lvl = s.lvl := by
  simp [bwriteLine]
  split
  · rfl
  · split <;> rfl

/-- Multi-line writes do not touch the indentation level. -/
theorem bwriteLines_lvl (lines : String) (s : BState) :
    (bwriteLines lines s).lvl = s.lvl := by
  simp [bwriteLines]
  split <;> rfl

/-- The visibility-label write dedents and re-indents: net level change is
zero. -/
theorem labelWrite_lvl (vis : Visibility) (s : BState) :
    (labelWrite vis s).lvl = s.lvl := by
  simp [labelWrite, bwriteLine_lvl]

/-- A brace exit always decrements the level by exactly one. -/
theorem braceExit_lvl (post : String) (s : BState) :
    (braceExit post s).lvl = s.lvl - 1 := by
  simp [braceExit]
  split <;> rfl

/-- A single-line block over a raw `write`, on a fresh strategy: braces
around the data. -/
theorem slScope_bwrite (post pre data : String) :
    (slScope post (bwrite data)
      { out := pre, lvl := 0, ws := "\t", ended := false }).out =
      pre ++ "\x7b" ++ data ++ ("\x7d" ++ post) := by
  by_cases h : data = ""
  · simp [slScope, slEnter, bwrite, slExit, h]
    rw [String.append_assoc]
  · simp [slScope, slEnter, bwrite, slExit, h, String.append_assoc]

/-- The definition-emission loop agrees with rendering every element and
joining the results with single newlines (error propagation included). -/
theorem defsLoop_eq (fname : String) (std : CppStd) :
    ∀ (pairs : List (CppElement × Option Members)) (out : String) (isFirst : Bool),
    ClassDefinition_defsLoop fname std pairs out isFirst =
      (match renderAll fname std pairs with
       | .error e => .error e
       | .ok rs =>
          .ok (out ++ (if isFirst then joinNl rs
                       else joinAll (rs.map (fun d => "\n" ++ d))))) := by
  intro pairs
  induction pairs with
  | nil =>
      intro out isFirst
      cases isFirst <;>
        simp [ClassDefinition_defsLoop, renderAll, joinNl, joinAll]
  | cons p rest ih =>
      intro out isFirst
      cases hbd : ClassDefinition_build_definition fname std p with
      | error er => simp [ClassDefinition_defsLoop, renderAll, hbd]
      | ok d =>
          cases hra : renderAll fname std rest with
          | error er =>
              simp [ClassDefinition_defsLoop, renderAll, hbd, hra, ih]
          | ok ds =>
              cases isFirst <;>
                simp [ClassDefinition_defsLoop, renderAll, hbd, hra, ih,
                  joinNl, joinAll, String.append_assoc]

/-- A K&R block over a `write_lines` body, started at level 0 on a fresh
strategy: the output is the prefix, `" {\n"`, the indented body lines, and
the closing `"}" ++ post`. -/
theorem knrScope_writeLines (post pre body : String) :
    (knrScope post (bwriteLines body)
      { out := pre, lvl := 0, ws := "\t", ended := false }).out =
      pre ++ " \x7b\n" ++ bodyLinesOut "\t" body ++ ("\x7d" ++ post) := by
  by_cases h : body = "" <;>
    simp [knrScope, knrEnter, bwriteLines, braceExit, bodyLinesOut, indentStr, h,
      String.append_assoc]

/-- The returned chain of `reduce` carries exactly the non-excluded kinds,
in order. -/
theorem reduce_kinds (q : Qualifier) (ex : List QKind) :
    kindsOf (q.reduce ex) = q.kinds.filter (fun k => decide (k ∉ ex)) := by
  induction q with
  | base k =>
      by_cases h : k ∈ ex <;>
        simp [Qualifier.reduce, Qualifier.kinds, kindsOf, h]
  | chain k d ih =>
      by_cases h : k ∈ ex
      · simpa [Qualifier.reduce, Qualifier.kinds, h] using ih
      · cases hd : d.reduce ex with
        | none =>
            rw [hd] at ih
            simp [kindsOf] at ih
            simp [Qualifier.reduce, Qualifier.kinds, kindsOf, h, hd]
            exact ih
        | some d2 =>
            rw [hd] at ih
            simp [kindsOf] at ih
            simp [Qualifier.reduce, Qualifier.kinds, kindsOf, h, hd]
            exact ih

/-! ### Claim theorems -/

/-- C1 (counterexample): the claim says a chain of three links renders all
three keywords; on `Static(Const(Volatile()))` the source renders only
`"static const"`, dropping `"volatile"`. -/
theorem C1_counterexample :
    Qualifier.call (.chain .static_ (.chain .const_ (.base .volatile_))) =
      "static const" ∧
    Qualifier.call (.chain .static_ (.chain .const_ (.base .volatile_))) ≠
      String.intercalate " "
        ((Qualifier.kinds (.chain .static_ (.chain .const_ (.base .volatile_)))).map
          QKind.keyword) := by
  exact ⟨rfl, by decide⟩

/-- C1 (amended): rendering a qualifier chain produces the space-joined
keywords of the first at most two links, outermost first; links beyond the
second are not rendered.  A chain with no decorator renders as just its
keyword, and a two-link chain as `"{keyword} {decorator_keyword}"`. -/
theorem C1_qualifier_render (q : Qualifier) :
    q.call = String.intercalate " " ((q.kinds.take 2).map QKind.keyword) := by
  cases q with
  | base k => rfl
  | chain k d => cases d <;> rfl

/-- C3 (code divergence): constructing a `Variable` or `Array` with an empty
name but a non-empty type succeeds, because their `__post_init__` overrides
skip the base class's name check; `Function` and `Class` construction does
fail on an empty name, and `Variable` does fail on an empty type (which is
also why the repo's `Variable()` test raises). -/
theorem C3_empty_name :
    mkVariable { name := "", type := "int" } = .ok { name := "", type := "int" } ∧
    mkArray { name := "", type := "int" } none none =
      .ok (.arrE { name := "", type := "int" } none none) ∧
    mkFunction { name := "" } = .error "CppElement.name cannot be empty" ∧
    mkClass false "" [] none none = .error "CppElement.name cannot be empty" ∧
    mkVariable { name := "a", type := "" } = .error "CppElement.type cannot be empty" ∧
    mkVariable { name := "", type := "" } = .error "CppElement.type cannot be empty" :=
  ⟨rfl, rfl, rfl, rfl, rfl, rfl⟩

/-- C4 (counterexample): the claim says `reduce_qualifiers` does not mutate
the caller's chain; after `reduce_qualifiers(Static(Const()), [Const])` the
caller's chain has become `Static()` — its decorator link was rebound. -/
theorem C4_counterexample :
    reduce_qualifiers_mutated (.chain .static_ (.base .const_)) [.const_] =
      .base .static_ ∧
    reduce_qualifiers_mutated (.chain .static_ (.base .const_)) [.const_] ≠
      .chain .static_ (.base .const_) := by
  exact ⟨rfl, by decide⟩

/-- C4 (amended): the chain returned by `reduce_qualifiers` carries exactly
the links of the original whose kind is not excluded, in original order;
but the operation rebinds the argument's decorator links in place, so after
the call the caller's original chain consists of its head link followed by
the filtered tail (the element's own qualifier survives only because
`variable_prototype` deep-copies before reducing). -/
theorem C4_reduce_qualifiers :
    (∀ (q : Option Qualifier) (ex : List QKind),
      kindsOf (reduce_qualifiers q ex) =
        (kindsOf q).filter (fun k => decide (k ∉ ex))) ∧
    (∀ (q : Qualifier) (ex : List QKind),
      (reduce_qualifiers_mutated q ex).kinds =
        q.kind :: (kindsOf q.decorator).filter (fun k => decide (k ∉ ex))) := by
  constructor
  · intro q ex
    cases q with
    | none => rfl
    | some q => simpa [reduce_qualifiers, kindsOf] using reduce_kinds q ex
  · intro q ex
    cases q with
    | base k => simp [reduce_qualifiers_mutated, Qualifier.kind, Qualifier.decorator, kindsOf, Qualifier.kinds]
    | chain k d =>
        have h := reduce_kinds d ex
        cases hd : d.reduce ex with
        | none =>
            rw [hd] at h
            simp [kindsOf] at h
            simp [reduce_qualifiers_mutated, Qualifier.kind, Qualifier.decorator,
              kindsOf, Qualifier.kinds, hd]
            exact h
        | some d2 =>
            rw [hd] at h
            simp [kindsOf] at h
            simp [reduce_qualifiers_mutated, Qualifier.kind, Qualifier.decorator,
              kindsOf, Qualifier.kinds, hd]
            exact h

/-- C7: a static, non-const, non-constexpr `int` member `x` of class `A`
with `init_value='1'` declares without the initializer (`"static int x;"`)
and defines as `"int A::x = 1;"` — the scoped name comes from walking the
`ref_to_parent` chain joined with `"::"`, and the `static` link is stripped
by the exclusion mechanism at the definition site. -/
theorem C7_static_member_renders :
    VariableDeclaration_code
      { name := "x", type := "int", qualifier := some (.base .static_),
        initValue := some "1", refToParent := [("A", true)] } = .ok "static int x;" ∧
    VariableDefinition_code
      { name := "x", type := "int", qualifier := some (.base .static_),
        initValue := some "1", refToParent := [("A", true)] } = .ok "int A::x = 1;" ∧
    (∀ (nm : String) (chain : ParentChain) (b : Bool),
      build_scope ((nm, b) :: chain) = build_scope chain ++ nm ++ "::") ∧
    reduce_qualifiers (some (.base .static_)) [.static_] = none := by
  refine ⟨rfl, rfl, fun nm chain b => rfl, rfl⟩

/-- Membership in the constructor initializer list, as the source computes
it, agrees pointwise with the spec's wording ("a Variable and not static
and not constexpr"). -/
theorem initializable_eq (e : CppElement) :
    ConstructorDefinition_is_initializable e = initializableSpec e := by
  cases e <;>
    simp [ConstructorDefinition_is_initializable, initializableSpec,
      isVariableE, qualifierOf]

/-- Each initializer entry renders as the spec (as amended) describes:
`name(init_or_empty)` for plain Variables, `name{...}` / `name()` for
Arrays depending on the standard. -/
theorem ctorEntry_eq (std : CppStd) (e : CppElement) :
    ctorInitializerEntry std e = ctorEntrySpec std e := by
  cases e with
  | arrE v items szRef =>
      simp [ctorInitializerEntry, ctorEntrySpec, ArrayConstructorDefinition_code,
        slScope_bwrite, String.append_assoc]
  | varE v => rfl
  | funcE f => rfl
  | classE a b c d p => rfl

/-- C5 (counterexample): the claim says every initializer entry renders as
`name(init_value_or_empty)`; for an `Array` member with
`init_value='1, 2'` the source renders the С++11 brace form `x{1, 2}` (the
repository's own test at `test_class.py:203` expects `x(1, 2)`). -/
theorem C5_counterexample :
    ConstructorDefinition_code { name := "A", refToParent := [("A", true)] }
      (some (.cons (.funcE { name := "A", refToParent := [("A", true)] }) .private_
        (.cons (.arrE { name := "x", type := "int", initValue := some "1, 2",
                        refToParent := [("A", true)] } none none) .private_ .nil)))
      .cpp11 = "A::A() :\nx\x7b1, 2\x7d \x7b\n\x7d" ∧
    ConstructorDefinition_code { name := "A", refToParent := [("A", true)] }
      (some (.cons (.funcE { name := "A", refToParent := [("A", true)] }) .private_
        (.cons (.arrE { name := "x", type := "int", initValue := some "1, 2",
                        refToParent := [("A", true)] } none none) .private_ .nil)))
      .cpp11 ≠ "A::A() :\nx(1, 2) \x7b\n\x7d" := by
  exact ⟨rfl, by decide⟩

/-- C5 (amended): a `Function` member whose name equals the owning class's
name is dispatched to the constructor renderers; its declaration carries no
return type, and its definition is the scope-qualified prototype with no
return type, followed (when non-empty) by `" :\n"` and the `",\n"`-joined
initializer list over exactly the non-static, non-constexpr Variable
members in member-list order — plain Variables as `name(init_or_empty)`,
Arrays in the standard-dependent brace/paren form — then the K&R body
block. -/
theorem C5_constructor (f : FunctionData) (cname : String) (ms : Members)
    (std : CppStd) (lvl : Int) (h : f.name = cname) :
    build_declaration_run std cname (.funcE f) lvl =
      .ok (ConstructorDeclaration_code f, lvl) ∧
    ConstructorDeclaration_code f = ctorDeclShapeSpec f ∧
    ClassDefinition_build_definition cname std (.funcE f, some ms) =
      .ok (ConstructorDefinition_code f (some ms) std) ∧
    ConstructorDefinition_code f (some ms) std = ctorShapeSpec f ms std := by
  refine ⟨?_, ?_, ?_, ?_⟩
  · simp [build_declaration_run, h]
  · simp [ConstructorDeclaration_code, FunctionDeclaration_code_core,
      ctorDeclShapeSpec, truthy, String.append_assoc]
  · simp [ClassDefinition_build_definition, h]
  · have hfe : ConstructorDefinition_is_initializable = initializableSpec :=
      funext initializable_eq
    have hee : ctorInitializerEntry std = ctorEntrySpec std :=
      funext (ctorEntry_eq std)
    rw [ConstructorDefinition_code, ConstructorDefinition_initializer_list,
      hfe, hee]
    simp [ctorShapeSpec, knrScope_writeLines, function_prototype, truthy,
      String.append_assoc]

/-- C5 witness: the amended statement applied to a concrete class `A` with
constructor `A` and one plain Variable member `x(1)`. -/
theorem C5_witness :
    build_declaration_run .cpp11 "A" (.funcE { name := "A", refToParent := [("A", true)] }) 0 =
      .ok (ConstructorDeclaration_code { name := "A", refToParent := [("A", true)] }, 0) ∧
    ConstructorDeclaration_code { name := "A", refToParent := [("A", true)] } =
      ctorDeclShapeSpec { name := "A", refToParent := [("A", true)] } ∧
    ClassDefinition_build_definition "A" .cpp11
      (.funcE { name := "A", refToParent := [("A", true)] },
        some (.cons (.funcE { name := "A", refToParent := [("A", true)] }) .private_
          (.cons (.varE { name := "x", type := "int", initValue := some "1", refToParent := [("A", true)] }) .private_ .nil))) =
      .ok (ConstructorDefinition_code { name := "A", refToParent := [("A", true)] }
        (some (.cons (.funcE { name := "A", refToParent := [("A", true)] }) .private_
          (.cons (.varE { name := "x", type := "int", initValue := some "1", refToParent := [("A", true)] }) .private_ .nil))) .cpp11) ∧
    ConstructorDefinition_code { name := "A", refToParent := [("A", true)] }
      (some (.cons (.funcE { name := "A", refToParent := [("A", true)] }) .private_
        (.cons (.varE { name := "x", type := "int", initValue := some "1", refToParent := [("A", true)] }) .private_ .nil))) .cpp11 =
      ctorShapeSpec { name := "A", refToParent := [("A", true)] }
        (.cons (.funcE { name := "A", refToParent := [("A", true)] }) .private_
          (.cons (.varE { name := "x", type := "int", initValue := some "1", refToParent := [("A", true)] }) .private_ .nil)) .cpp11 :=
  C5_constructor { name := "A", refToParent := [("A", true)] } "A"
    (.cons (.funcE { name := "A", refToParent := [("A", true)] }) .private_
      (.cons (.varE { name := "x", type := "int", initValue := some "1", refToParent := [("A", true)] }) .private_ .nil))
    .cpp11 0 rfl

/-- C2 (counterexample): successive out-of-class definitions are separated
by a *single newline*, not a blank line — the two-function class renders
with no `"\n\n"` anywhere; and a class whose only member is a nested class
with an uninitialized (`None`) member list raises instead of rendering
empty text, although it has no qualifying members. -/
theorem C2_counterexample :
    ClassDefinition_code "A" .cpp11
      (some (.cons (.funcE { name := "Foo", refToParent := [("A", true)] }) .private_
        (.cons (.funcE { name := "Goo", refToParent := [("A", true)] }) .private_ .nil))) =
      .ok "void A::Foo() \x7b\n\x7d\nvoid A::Goo() \x7b\n\x7d" ∧
    strContains "void A::Foo() \x7b\n\x7d\nvoid A::Goo() \x7b\n\x7d" "\n\n" = false ∧
    ClassDefinition_code "A" .cpp11
      (some (.cons (.classE false "B" [("A", true)] none none) .private_ .nil)) =
      .error "TypeError: argument of type NoneType is not iterable" :=
  ⟨rfl, rfl, rfl⟩

/-- C2 (amended): the selection predicate matches the spec's wording
(Functions always; Variables that are static, non-constexpr and not
const-and-integral); nested classes' translation units are collected before
the outer class's own; the emitted definitions of the collected elements
are joined with a single newline between successive ones; a `None` or empty
member list renders as empty text, as does a member list whose collection
succeeds with no qualifying element. -/
theorem C2_translation_units :
    (∀ e, is_translation_unit_element e = is_tu_spec e) ∧
    (∀ (ms : Members) (nested : List (CppElement × Option Members)),
      tuNestedPairs ms = .ok nested →
      tuPairsOfClass (some ms) = .ok (nested ++ directTUPairs ms)) ∧
    (∀ (name : String) (std : CppStd),
      ClassDefinition_code name std none = .ok "" ∧
      ClassDefinition_code name std (some .nil) = .ok "") ∧
    (∀ (name : String) (std : CppStd) (ms : Members)
      (pairs : List (CppElement × Option Members)) (rendered : List String),
      tuPairsOfClass (some ms) = .ok pairs →
      renderAll name std pairs = .ok rendered →
      ClassDefinition_code name std (some ms) = .ok (joinNl rendered)) ∧
    (∀ (name : String) (std : CppStd) (ms : Members),
      tuPairsOfClass (some ms) = .ok [] →
      ClassDefinition_code name std (some ms) = .ok "") := by
  refine ⟨?_, ?_, ?_, ?_, ?_⟩
  · intro e
    cases e <;>
      simp [is_translation_unit_element, is_tu_spec, isFunctionE, isVariableE,
        qualifierOf, typeOf, Bool.and_assoc]
  · intro ms nested h
    simp [tuPairsOfClass, h, directTUPairs]
  · intro name std
    exact ⟨rfl, rfl⟩
  · intro name std ms pairs rendered h1 h2
    cases ms with
    | nil =>
        simp [tuPairsOfClass, tuNestedPairs, Members.toList] at h1
        subst h1
        simp [renderAll] at h2
        subst h2
        rfl
    | cons e v rest =>
        simp [ClassDefinition_code, h1, defsLoop_eq, h2]
  · intro name std ms h
    cases ms with
    | nil => rfl
    | cons e v rest =>
        simp [ClassDefinition_code, h, defsLoop_eq, renderAll, joinNl]

/-- C2 witness: the amended statement applied to the concrete two-function
class, whose collected pairs and rendered definitions are evaluated
explicitly. -/
theorem C2_witness :
    ClassDefinition_code "A" .cpp11
      (some (.cons (.funcE { name := "Foo", refToParent := [("A", true)] }) .private_
        (.cons (.funcE { name := "Goo", refToParent := [("A", true)] }) .private_ .nil))) =
      .ok (joinNl ["void A::Foo() \x7b\n\x7d", "void A::Goo() \x7b\n\x7d"]) :=
  C2_translation_units.2.2.2.1 "A" .cpp11
    (.cons (.funcE { name := "Foo", refToParent := [("A", true)] }) .private_
      (.cons (.funcE { name := "Goo", refToParent := [("A", true)] }) .private_ .nil))
    [(.funcE { name := "Foo", refToParent := [("A", true)] },
        some (.cons (.funcE { name := "Foo", refToParent := [("A", true)] }) .private_
          (.cons (.funcE { name := "Goo", refToParent := [("A", true)] }) .private_ .nil))),
      (.funcE { name := "Goo", refToParent := [("A", true)] },
        some (.cons (.funcE { name := "Foo", refToParent := [("A", true)] }) .private_
          (.cons (.funcE { name := "Goo", refToParent := [("A", true)] }) .private_ .nil)))]
    ["void A::Foo() \x7b\n\x7d", "void A::Goo() \x7b\n\x7d"] rfl rfl

/-- C8 (counterexample): the claim says that when items exist the brace body
is the joined item list; with items `["1", "2"]` *and* `init_value = "9"`
the source uses the `init_value` instead. -/
theorem C8_counterexample :
    ArrayDefinition_code { name := "a", type := "int", initValue := some "9" }
      (some ["1", "2"]) = "int a[] = \x7b\n\t9\n\x7d;" ∧
    ArrayDefinition_code { name := "a", type := "int", initValue := some "9" }
      (some ["1", "2"]) ≠ "int a[] = \x7b\n\t1,\n\t2\n\x7d;" := by
  exact ⟨rfl, by decide⟩

/-- C8 (amended): in an array definition the brace body is the explicit
`init_value` whenever that is a non-empty string — even when items exist —
and the `",\n"`-joined item list only otherwise. -/
theorem C8_array_definition_body (v : VariableData) (items : Option (List String)) :
    ArrayDefinition_code v items = arrayDefShapeSpec v items := by
  simp [ArrayDefinition_code, arrayDefShapeSpec, knrScope_writeLines,
    String.append_assoc]

/-- The label counter returned by the declaration loop follows the
`last_visibility` recurrence: one label per member whose visibility differs
from the running value. -/
theorem declLoop_count (std : CppStd) (fname : String) (ms : Members) :
    ∀ (lastVis : Visibility) (s : BState) (rs : BState) (rv : Visibility) (rn : Nat),
    declLoop std fname ms lastVis s = .ok (rs, rv, rn) →
    rn = loopLabelCount lastVis ms.visibilities := by
  cases ms with
  | nil =>
      intro lastVis s rs rv rn h
      simp [declLoop] at h
      simp [Members.visibilities, loopLabelCount, ← h.2.2]
  | cons e v rest =>
      intro lastVis s rs rv rn h
      rw [declLoop] at h
      by_cases hv : v = lastVis
      · subst hv
        simp only [ne_eq, not_true_eq_false, ite_false] at h
        split at h
        · simp at h
        · rename_i td hbd
          split at h
          · simp at h
          · rename_i r hdl
            obtain ⟨rrs, rrv, rrn⟩ := r
            simp at h
            have hrec := declLoop_count std fname rest v _ rrs rrv rrn hdl
            simp [Members.visibilities, loopLabelCount, ← h.2.2, hrec]
      · simp only [hv, ne_eq, not_false_eq_true, ite_true] at h
        split at h
        · simp at h
        · rename_i td hbd
          split at h
          · simp at h
          · rename_i r hdl
            obtain ⟨rrs, rrv, rrn⟩ := r
            simp at h
            have hrec := declLoop_count std fname rest v _ rrs rrv rrn hdl
            simp [Members.visibilities, loopLabelCount, hv, ← h.2.2, hrec]

/-- The loop recurrence equals the spec's closed formula: the number of
adjacent visibility changes plus one when the first visibility differs from
the default. -/
theorem loopLabelCount_eq_spec (vs : List Visibility) :
    ∀ (dflt : Visibility), loopLabelCount dflt vs = specLabelCount dflt vs := by
  induction vs with
  | nil => intro dflt; rfl
  | cons v1 rest ih =>
      intro dflt
      cases rest with
      | nil =>
          by_cases h : v1 = dflt <;>
            simp [loopLabelCount, specLabelCount, h]
      | cons v2 rest2 =>
          have h2 := ih v1
          simp only [loopLabelCount, specLabelCount, List.tail_cons,
            List.zip_cons_cons, List.countP_cons] at h2 ⊢
          rcases Decidable.em (v1 = v2) with hh | hh
          · subst hh
            simp at h2 ⊢
            omega
          · have hh2 : ¬ v2 = v1 := fun x => hh x.symm
            simp [hh, hh2] at h2 ⊢
            omega

/-- C6: the declaration renderer of a Class (default `private`) or Struct
(default `public`) emits exactly as many visibility labels as the spec's
formula — the number of adjacent pairs with differing visibilities, plus
one when the first member's visibility differs from the kind's default. -/
theorem C6_visibility_labels (std : CppStd) (isStruct : Bool) (name : String)
    (parents : Option (List (String × Visibility))) (ms : Members) (lvl : Int)
    (out : String) (lvl2 : Int) (visF : Visibility) (n : Nat)
    (h : classDeclaration_run std isStruct name parents (some ms)
      (defaultVisibility isStruct) lvl = .ok (out, lvl2, visF, n)) :
    n = specLabelCount (defaultVisibility isStruct) ms.visibilities := by
  cases ms with
  | nil =>
      simp [classDeclaration_run] at h
      simp [Members.visibilities, specLabelCount, ← h.2.2.2]
  | cons e v rest =>
      rw [classDeclaration_run] at h
      split at h
      · simp at h
      · rename_i r hdl
        obtain ⟨rrs, rrv, rrn⟩ := r
        simp at h
        have hc := declLoop_count std name (.cons e v rest)
          (defaultVisibility isStruct) _ rrs rrv rrn hdl
        rw [← h.2.2.2, hc, loopLabelCount_eq_spec]

/-- C6 witness: the alternating-visibility class (`private`, `public`,
`private` members of a Class) emits exactly two labels. -/
theorem C6_witness :
    (2 : Nat) = specLabelCount (defaultVisibility false)
      (Members.visibilities
        (.cons (.varE { name := "x", type := "int", refToParent := [("A", true)] }) .private_
          (.cons (.funcE { name := "Foo", refToParent := [("A", true)] }) .public_
            (.cons (.varE { name := "y", type := "float", refToParent := [("A", true)] }) .private_ .nil)))) :=
  C6_visibility_labels .cpp11 false "A" none
    (.cons (.varE { name := "x", type := "int", refToParent := [("A", true)] }) .private_
      (.cons (.funcE { name := "Foo", refToParent := [("A", true)] }) .public_
        (.cons (.varE { name := "y", type := "float", refToParent := [("A", true)] }) .private_ .nil)))
    0 "class A \x7b\n\tint x;\npublic:\n\tvoid Foo();\nprivate:\n\tfloat y;\n\x7d;" 0 .private_ 2 rfl

/-- C9: rendering the same element tree twice through fresh renderer
instances (the `visibility` field at its per-kind default, a fresh writer,
a fresh `Indentation`) produces byte-identical text, for both the
declaration and the definition renderers. -/
theorem C9_render_deterministic (std : CppStd) (isStruct : Bool) (name : String)
    (parents : Option (List (String × Visibility))) (els : Option Members)
    (v1 v2 : Visibility) (l1 l2 : Int)
    (h1 : v1 = defaultVisibility isStruct) (h2 : v2 = defaultVisibility isStruct)
    (h3 : l1 = 0) (h4 : l2 = 0) :
    classDeclaration_run std isStruct name parents els v1 l1 =
      classDeclaration_run std isStruct name parents els v2 l2 ∧
    ClassDefinition_code name std els = ClassDefinition_code name std els := by
  subst h1; subst h2; subst h3; subst h4
  exact ⟨rfl, rfl⟩

/-- C9 witness: two fresh renders of a concrete one-member class agree. -/
theorem C9_witness :
    classDeclaration_run .cpp11 false "A" none
      (some (.cons (.varE { name := "x", type := "int", refToParent := [("A", true)] })
        .public_ .nil)) .private_ 0 =
    classDeclaration_run .cpp11 false "A" none
      (some (.cons (.varE { name := "x", type := "int", refToParent := [("A", true)] })
        .public_ .nil)) .private_ 0 ∧
    ClassDefinition_code "A" .cpp11
      (some (.cons (.varE { name := "x", type := "int", refToParent := [("A", true)] })
        .public_ .nil)) =
    ClassDefinition_code "A" .cpp11
      (some (.cons (.varE { name := "x", type := "int", refToParent := [("A", true)] })
        .public_ .nil)) :=
  C9_render_deterministic .cpp11 false "A" none
    (some (.cons (.varE { name := "x", type := "int", refToParent := [("A", true)] })
      .public_ .nil)) .private_ .private_ 0 0 rfl rfl rfl rfl

mutual

/-- Every successful member-declaration dispatch returns the indentation
level it was given (mutually with the class-declaration renderer for nested
classes). -/
theorem build_declaration_lvl (std : CppStd) (fname : String) (e : CppElement)
    (lvl : Int) (t : String) (l2 : Int)
    (h : build_declaration_run std fname e lvl = .ok (t, l2)) : l2 = lvl := by
  cases e with
  | varE v =>
      revert h
      cases hv : VariableDeclaration_code v <;> simp [build_declaration_run, hv]
      intro h1 h2
      omega
  | arrE v items szRef =>
      simp [build_declaration_run] at h
      exact h.2.symm
  | funcE f =>
      simp [build_declaration_run] at h
      exact h.2.symm
  | classE isS nm rp els ps =>
      revert h
      cases hr : classDeclaration_run std isS nm ps els (defaultVisibility isS) lvl with
      | error er => simp [build_declaration_run, hr]
      | ok r =>
          simp [build_declaration_run, hr]
          intro h1 h2
          have hcd := classDeclaration_lvl std isS nm ps els (defaultVisibility isS) lvl r hr
          omega

/-- The member loop of the class declaration leaves the indentation level
unchanged: every label write is balanced and every member declaration
returns the level it was given. -/
theorem declLoop_lvl (std : CppStd) (fname : String) (ms : Members)
    (lastVis : Visibility) (s : BState) (rs : BState) (rv : Visibility) (rn : Nat)
    (h : declLoop std fname ms lastVis s = .ok (rs, rv, rn)) : rs.lvl = s.lvl := by
  cases ms with
  | nil =>
      simp [declLoop] at h
      rw [← h.1]
  | cons e v rest =>
      rw [declLoop] at h
      by_cases hv : v = lastVis
      · subst hv
        simp only [ne_eq, not_true_eq_false, ite_false] at h
        split at h
        · simp at h
        · rename_i td hbd
          split at h
          · simp at h
          · rename_i r hdl
            obtain ⟨rrs, rrv, rrn⟩ := r
            simp at h
            have h1 := declLoop_lvl std fname rest v _ rrs rrv rrn hdl
            have h2 := build_declaration_lvl std fname e s.lvl td.1 td.2 hbd
            rw [← h.1]
            rw [h1]
            simp [bwriteLine_lvl]
            omega
      · simp only [hv, ne_eq, not_false_eq_true, ite_true] at h
        split at h
        · simp at h
        · rename_i td hbd
          split at h
          · simp at h
          · rename_i r hdl
            obtain ⟨rrs, rrv, rrn⟩ := r
            simp at h
            have h1 := declLoop_lvl std fname rest v _ rrs rrv rrn hdl
            have h2 := build_declaration_lvl std fname e (labelWrite v s).lvl td.1 td.2 hbd
            have h3 := labelWrite_lvl v s
            rw [← h.1]
            rw [h1]
            simp [bwriteLine_lvl]
            omega

/-- A successful class-declaration render returns the `Indentation` at the
level it was given: the K&R enter/exit pair cancels and the member loop
preserves the level. -/
theorem classDeclaration_lvl (std : CppStd) (isStruct : Bool) (name : String)
    (parents : Option (List (String × Visibility))) (els : Option Members)
    (vis : Visibility) (lvl : Int) (r : String × Int × Visibility × Nat)
    (h : classDeclaration_run std isStruct name parents els vis lvl = .ok r) :
    r.2.1 = lvl := by
  obtain ⟨ro, rl, rv2, rn2⟩ := r
  show rl = lvl
  cases els with
  | none =>
      simp [classDeclaration_run, braceExit, knrEnter] at h
      omega
  | some ms =>
      cases ms with
      | nil =>
          simp [classDeclaration_run, braceExit, knrEnter] at h
          omega
      | cons e v rest =>
          rw [classDeclaration_run] at h
          split at h
          · simp at h
          · rename_i rr hdl
            obtain ⟨rrs, rrv, rrn⟩ := rr
            simp at h
            have h1 := declLoop_lvl std name (.cons e v rest) vis _ rrs rrv rrn hdl
            simp [knrEnter] at h1
            have h2 := h.2.1
            rw [braceExit_lvl] at h2
            omega

end

/-- C10: every brace open/close cycle restores the indentation level —
Allman and K&R increment on enter and decrement on exit, the single-line
style changes the level in neither direction, the temporary dedent around a
visibility label is balanced, and a whole class-declaration render returns
the `Indentation` it was given at its original level. -/
theorem C10_indentation_balance :
    (∀ s : BState, (knrEnter s).lvl = s.lvl + 1) ∧
    (∀ s : BState, (allmanEnter s).lvl = s.lvl + 1) ∧
    (∀ (post : String) (s : BState), (braceExit post s).lvl = s.lvl - 1) ∧
    (∀ s : BState, (slEnter s).lvl = s.lvl) ∧
    (∀ (post : String) (s : BState), (slExit post s).lvl = s.lvl) ∧
    (∀ (vis : Visibility) (s : BState), (labelWrite vis s).lvl = s.lvl) ∧
    (∀ (post : String) (body : BState → BState) (s : BState),
      (∀ t, (body t).lvl = t.lvl) →
      (knrScope post body s).lvl = s.lvl ∧
      (allmanScope post body s).lvl = s.lvl ∧
      (slScope post body s).lvl = s.lvl) ∧
    (∀ (std : CppStd) (isStruct : Bool) (name : String)
      (parents : Option (List (String × Visibility))) (els : Option Members)
      (vis : Visibility) (lvl : Int) (r : String × Int × Visibility × Nat),
      classDeclaration_run std isStruct name parents els vis lvl = .ok r →
      r.2.1 = lvl) := by
  refine ⟨?_, ?_, ?_, ?_, ?_, ?_, ?_, ?_⟩
  · intro s; simp [knrEnter]
  · intro s; simp [allmanEnter]
  · intro post s; exact braceExit_lvl post s
  · intro s; simp [slEnter]
  · intro post s; simp [slExit]
  · intro vis s; exact labelWrite_lvl vis s
  · intro post body s hb
    refine ⟨?_, ?_, ?_⟩
    · rw [knrScope, braceExit_lvl, hb]
      simp [knrEnter]
    · rw [allmanScope, braceExit_lvl, hb]
      simp [allmanEnter]
    · rw [slScope, slExit, hb]
      simp [slEnter]
  · intro std isStruct name parents els vis lvl r h
    exact classDeclaration_lvl std isStruct name parents els vis lvl r h

/-- C10 witness: the scope combinators on a concrete level-0 state, and a
concrete empty-class render, all restore level 0. -/
theorem C10_witness :
    ((knrScope ";" (fun t => t) { out := "", lvl := 0, ws := "\t", ended := false }).lvl =
        ({ out := "", lvl := 0, ws := "\t", ended := false } : BState).lvl ∧
      (allmanScope ";" (fun t => t) { out := "", lvl := 0, ws := "\t", ended := false }).lvl =
        ({ out := "", lvl := 0, ws := "\t", ended := false } : BState).lvl ∧
      (slScope ";" (fun t => t) { out := "", lvl := 0, ws := "\t", ended := false }).lvl =
        ({ out := "", lvl := 0, ws := "\t", ended := false } : BState).lvl) ∧
    (("class A \x7b\n\x7d;", (0 : Int), Visibility.private_, (0 : Nat)).2.1 = (0 : Int)) :=
  ⟨C10_indentation_balance.2.2.2.2.2.2.1 ";" (fun t => t)
      { out := "", lvl := 0, ws := "\t", ended := false } (fun _ => rfl),
    C10_indentation_balance.2.2.2.2.2.2.2 .cpp11 false "A" none none .private_ 0
      ("class A \x7b\n\x7d;", 0, .private_, 0) rfl⟩

end CppGen
